import Mathlib

/-!
Shallow embedding of the cart service of the qkart backend
(src/services/cart.service.js).

Modelling conventions:
* Mongo documents become Lean structures.  A product `_id` is a `String`
  (`ProductId`); a product `cost` and a line-item `quantity` are `Nat`
  (the spec calls cost non-negative numeric); `walletMoney` is `Int`
  (checkout subtracts with no lower bound, so the balance can go
  negative).
* The Product Catalog (`Product.findOne({_id})`) is a lookup function
  `ProductId → Option Product`.  The Cart Store holds at most one cart
  per user; an operation on one user touches exactly that document, so
  the store is threaded as `Option Cart` (the user's stored cart).
  The User Directory record for the user is threaded as a `User`.
* A thrown `ApiError` becomes an error value; `httpStatus.NOT_FOUND`,
  `BAD_REQUEST` and `INTERNAL_SERVER_ERROR` become `ErrStatus`.
* Each mutating operation returns both the thrown/returned value and the
  post-state of the stores, so that which writes happened (and which did
  not) is visible.  In the JS, a store write happens only through
  `Cart.create` / `cart.save()`; `checkout` mutates the in-memory `user`
  object but never calls `user.save()`, so the modelled User Directory
  record passes through unchanged while the in-memory user is returned
  separately.
* JS truthiness on `user.walletMoney` (a number): falsy exactly when the
  value is `0` (the unset/`NaN` cases collapse to `0` in the `Int`
  model); `!(await user.hasSetNonDefaultAddress())` becomes negation of
  a `Bool` field.
-/

abbrev ProductId := String

structure Product where
  id : ProductId
  cost : Nat
  deriving DecidableEq, Repr

structure CartItem where
  product : Product
  quantity : Nat
  deriving DecidableEq, Repr

structure Cart where
  email : String
  cartItems : List CartItem
  deriving DecidableEq, Repr

structure User where
  email : String
  walletMoney : Int
  hasSetNonDefaultAddress : Bool
  deriving DecidableEq, Repr

inductive ErrStatus where
  | notFound
  | badRequest
  | internalError
  deriving DecidableEq, Repr

structure ApiError where
  status : ErrStatus
  message : String
  deriving DecidableEq, Repr

/-- `getCartByUser` (cart.service.js lines 21-27): fetch the user's cart;
`404 NOT_FOUND` when none exists.  Read-only: no store post-state. -/
def getCartByUser (storedCart : Option Cart) : Except ApiError Cart :=
  match storedCart with
  | none => .error ⟨.notFound, "User does not have a cart"⟩
  | some cart => .ok cart

deriving instance DecidableEq for Except

/-- Result of a cart-mutating operation: the value returned or error
thrown, and the user's cart document as persisted afterwards. -/
structure CartOpOutcome where
  res : Except ApiError Cart
  cartStore : Option Cart
  deriving DecidableEq, Repr

/-- `addProductToCart` (cart.service.js lines 53-98).  `createOk` models
whether `Cart.create` succeeds (the code checks the created document for
falsiness and throws `500` if it is falsy).  The duplicate check is the
JS `itemArray.find((ele) => ele.product._id == productId)`. -/
def addProductToCart (catalog : ProductId → Option Product) (user : User)
    (productId : ProductId) (quantity : Nat) (storedCart : Option Cart)
    (createOk : Bool) : CartOpOutcome :=
  match catalog productId with
  | none => ⟨.error ⟨.badRequest, "Product doesn\x27t exist in database"⟩, storedCart⟩
  | some product =>
    match storedCart with
    | none =>
      if createOk then
        let userCart : Cart := ⟨user.email, [⟨product, quantity⟩]⟩
        ⟨.ok userCart, some userCart⟩
      else
        ⟨.error ⟨.internalError, "Internal Server Error"⟩, none⟩
    | some userCart =>
      if userCart.cartItems.any (fun ele => ele.product.id == productId) then
        ⟨.error ⟨.badRequest,
          "Product already in cart. Use the cart sidebar to update or remove product from cart"⟩,
         some userCart⟩
      else
        let newCart : Cart :=
          { userCart with cartItems := userCart.cartItems ++ [⟨product, quantity⟩] }
        ⟨.ok newCart, some newCart⟩

/-- Overwrite the quantity of the first line item whose product id
matches, leaving everything else in place: the JS
`find` / `indexOf` / `cart.cartItems[idx].quantity = quantity` sequence
(both `find` and `indexOf` locate the first match). -/
def updateFirstQuantity (productId : ProductId) (quantity : Nat) :
    List CartItem → List CartItem
  | [] => []
  | ele :: rest =>
    if ele.product.id == productId then { ele with quantity := quantity } :: rest
    else ele :: updateFirstQuantity productId quantity rest

/-- `updateProductInCart` (cart.service.js lines 123-147). -/
def updateProductInCart (catalog : ProductId → Option Product) (user : User)
    (productId : ProductId) (quantity : Nat) (storedCart : Option Cart) :
    CartOpOutcome :=
  match storedCart with
  | none =>
    ⟨.error ⟨.badRequest,
      "User does not have a cart. Use POST to create cart and add a product"⟩, none⟩
  | some cart =>
    match catalog productId with
    | none => ⟨.error ⟨.badRequest, "Product doesn\x27t exist in database"⟩, some cart⟩
    | some _ =>
      if cart.cartItems.any (fun ele => ele.product.id == productId) then
        let newCart : Cart :=
          { cart with cartItems := updateFirstQuantity productId quantity cart.cartItems }
        ⟨.ok newCart, some newCart⟩
      else
        ⟨.error ⟨.badRequest, "Product not in cart"⟩, some cart⟩

/-- Remove the first line item whose product id matches, leaving the
rest in order: the JS `find` / `indexOf` / `splice(idx, 1)` sequence. -/
def removeFirstItem (productId : ProductId) : List CartItem → List CartItem
  | [] => []
  | ele :: rest =>
    if ele.product.id == productId then rest
    else ele :: removeFirstItem productId rest

/-- `deleteProductFromCart` (cart.service.js lines 166-185).  Note: the
code ends with `return cart;`, so the function returns the updated cart
document (its doc comment declares no return value). -/
def deleteProductFromCart (user : User) (productId : ProductId)
    (storedCart : Option Cart) : CartOpOutcome :=
  match storedCart with
  | none =>
    ⟨.error ⟨.badRequest,
      "User does not have a cart. Use POST to create cart and add a product"⟩, none⟩
  | some cart =>
    if cart.cartItems.any (fun ele => ele.product.id == productId) then
      let newCart : Cart :=
        { cart with cartItems := removeFirstItem productId cart.cartItems }
      ⟨.ok newCart, some newCart⟩
    else
      ⟨.error ⟨.badRequest, "Product not in cart"⟩, some cart⟩

/-- The checkout total: the JS
`cart.cartItems.forEach(ele => { sum += ele.product.cost * ele.quantity })`
accumulation. -/
def cartTotal (items : List CartItem) : Nat :=
  items.foldl (fun sum ele => sum + ele.product.cost * ele.quantity) 0

/-- Result of `checkout`: the thrown error if any, the in-memory `user`
object after the call, and the post-state of the Cart Store and of the
User Directory record for this user. -/
structure CheckoutOutcome where
  err : Option ApiError
  memUser : User
  cartStore : Option Cart
  userStore : User
  deriving DecidableEq, Repr

/-- `checkout` (cart.service.js lines 196-216).  The only persistence
call in the JS is `await cart.save()`; `user.walletMoney -= sum` mutates
the in-memory user object and no `user.save()` follows, so `userStore`
always passes through unchanged. -/
def checkout (user : User) (storedCart : Option Cart) (storedUser : User) :
    CheckoutOutcome :=
  match storedCart with
  | none => ⟨some ⟨.notFound, "User does not have a cart"⟩, user, none, storedUser⟩
  | some cart =>
    if cart.cartItems.length == 0 then
      ⟨some ⟨.badRequest, "User cart is empty"⟩, user, some cart, storedUser⟩
    else if !user.hasSetNonDefaultAddress then
      ⟨some ⟨.badRequest, "Default address is not set"⟩, user, some cart, storedUser⟩
    else if user.walletMoney == 0 then
      ⟨some ⟨.badRequest, "Insufficient balance"⟩, user, some cart, storedUser⟩
    else
      let sum := cartTotal cart.cartItems
      ⟨none, { user with walletMoney := user.walletMoney - (sum : Int) },
       some { cart with cartItems := [] }, storedUser⟩

/-- Does the stored cart already contain a line item for this product?
The membership test used throughout the service. -/
def cartHasProduct (cart : Cart) (productId : ProductId) : Bool :=
  cart.cartItems.any (fun ele => ele.product.id == productId)

/-- Number of line items of the cart referencing the given product. -/
def productLineCount (cart : Cart) (productId : ProductId) : Nat :=
  cart.cartItems.countP (fun ele => ele.product.id == productId)

/-- The cart invariant of the spec data model: every quantity is at
least 1 and no two line items reference the same product. -/
def cartInv (cart : Cart) : Prop :=
  (∀ it ∈ cart.cartItems, 1 ≤ it.quantity) ∧
    (cart.cartItems.map (fun it => it.product.id)).Nodup

/-- The invariant lifted to the stored cart of a user. -/
def cartStoreInv : Option Cart → Prop
  | none => True
  | some cart => cartInv cart

instance (cart : Cart) : Decidable (cartInv cart) := by
  unfold cartInv; infer_instance

instance (storedCart : Option Cart) : Decidable (cartStoreInv storedCart) := by
  cases storedCart <;> · unfold cartStoreInv; infer_instance

/-- A small concrete Product Catalog used for concrete instantiations:
product "A" costs 10, product "B" costs 5, nothing else exists. -/
def sampleCatalog : ProductId → Option Product :=
  fun pid => if pid == "A" then some ⟨"A", 10⟩ else if pid == "B" then some ⟨"B", 5⟩ else none

/-- The catalog is keyed by product identity: a successful lookup
returns the product with the looked-up id (Mongo
`Product.findOne({ _id: productId })` semantics). -/
lemma sampleCatalog_wf : ∀ pid p, sampleCatalog pid = some p → p.id = pid := by
  intro pid p h
  unfold sampleCatalog at h
  split_ifs at h with h1 h2
  · cases h
    simp only [beq_iff_eq] at h1
    exact h1.symm
  · cases h
    simp only [beq_iff_eq] at h2
    exact h2.symm

/-- The `forEach` accumulation equals the sum over line items of
(snapshot cost × quantity). -/
lemma cartTotal_eq_sum (items : List CartItem) :
    cartTotal items = (items.map (fun it => it.product.cost * it.quantity)).sum := by
  have key : ∀ (l : List CartItem) (a : Nat),
      l.foldl (fun sum ele => sum + ele.product.cost * ele.quantity) a =
        a + (l.map (fun it => it.product.cost * it.quantity)).sum := by
    intro l
    induction l with
    | nil => intro a; simp
    | cons hd tl ih => intro a; simp [ih, Nat.add_assoc]
  simpa [cartTotal] using key items 0

/-- C1: if the cart exists and is non-empty, the address check passes
and the wallet balance is truthy (nonzero in the `Int` model), checkout
succeeds, debits the in-memory wallet by exactly the sum over line items
of (embedded snapshot cost × quantity), and persists the cart with an
empty item list.  No hypothesis bounds the total by the balance, so the
resulting balance may be negative (see the witness, where it is −20). -/
theorem checkout_success_debits_and_empties (user : User) (cart : Cart) (storedUser : User)
    (hne : cart.cartItems ≠ []) (haddr : user.hasSetNonDefaultAddress = true)
    (hbal : user.walletMoney ≠ 0) :
    (checkout user (some cart) storedUser).err = none ∧
    cartTotal cart.cartItems =
      (cart.cartItems.map (fun it => it.product.cost * it.quantity)).sum ∧
    (checkout user (some cart) storedUser).memUser.walletMoney =
      user.walletMoney - (cartTotal cart.cartItems : Int) ∧
    (checkout user (some cart) storedUser).cartStore = some { cart with cartItems := [] } := by
  have hlen : (cart.cartItems.length == 0) = false := by
    simp [List.length_eq_zero, hne]
  have hbal2 : (user.walletMoney == 0) = false := by simp [hbal]
  refine ⟨?_, cartTotal_eq_sum cart.cartItems, ?_, ?_⟩ <;>
    simp [checkout, hlen, haddr, hbal2]

/-- Witness for C1: wallet 5, cart [(A, cost 10, qty 2), (B, cost 5,
qty 1)] — checkout succeeds, the in-memory balance becomes 5 − 25 = −20
(negative), and the stored cart is emptied. -/
theorem checkout_success_debits_and_empties_witness :
    (checkout ⟨"u@qkart.com", 5, true⟩
        (some ⟨"u@qkart.com", [⟨⟨"A", 10⟩, 2⟩, ⟨⟨"B", 5⟩, 1⟩]⟩)
        ⟨"u@qkart.com", 5, true⟩).err = none ∧
    (checkout ⟨"u@qkart.com", 5, true⟩
        (some ⟨"u@qkart.com", [⟨⟨"A", 10⟩, 2⟩, ⟨⟨"B", 5⟩, 1⟩]⟩)
        ⟨"u@qkart.com", 5, true⟩).memUser.walletMoney = -20 ∧
    (checkout ⟨"u@qkart.com", 5, true⟩
        (some ⟨"u@qkart.com", [⟨⟨"A", 10⟩, 2⟩, ⟨⟨"B", 5⟩, 1⟩]⟩)
        ⟨"u@qkart.com", 5, true⟩).cartStore = some ⟨"u@qkart.com", []⟩ := by
  obtain ⟨h1, _, h2, h3⟩ := checkout_success_debits_and_empties ⟨"u@qkart.com", 5, true⟩
    ⟨"u@qkart.com", [⟨⟨"A", 10⟩, 2⟩, ⟨⟨"B", 5⟩, 1⟩]⟩ ⟨"u@qkart.com", 5, true⟩
    (by decide) (by decide) (by decide)
  exact ⟨h1, by rw [h2]; decide, h3⟩

/-- C3: the four checkout failure cases, in the order the code applies
them: missing cart (NotFound), empty cart, missing non-default address,
falsy wallet balance (zero in the `Int` model) — each returns the full
pre-state unchanged (same in-memory user, same stored cart, same User
Directory record). -/
theorem checkout_error_cases (user : User) (storedCart : Option Cart) (storedUser : User) :
    (storedCart = none →
      checkout user storedCart storedUser =
        ⟨some ⟨.notFound, "User does not have a cart"⟩, user, none, storedUser⟩) ∧
    (∀ cart, storedCart = some cart → cart.cartItems = [] →
      checkout user storedCart storedUser =
        ⟨some ⟨.badRequest, "User cart is empty"⟩, user, some cart, storedUser⟩) ∧
    (∀ cart, storedCart = some cart → cart.cartItems ≠ [] →
        user.hasSetNonDefaultAddress = false →
      checkout user storedCart storedUser =
        ⟨some ⟨.badRequest, "Default address is not set"⟩, user, some cart, storedUser⟩) ∧
    (∀ cart, storedCart = some cart → cart.cartItems ≠ [] →
        user.hasSetNonDefaultAddress = true → user.walletMoney = 0 →
      checkout user storedCart storedUser =
        ⟨some ⟨.badRequest, "Insufficient balance"⟩, user, some cart, storedUser⟩) := by
  refine ⟨?_, ?_, ?_, ?_⟩
  · rintro rfl; rfl
  · rintro cart rfl hitems
    simp [checkout, hitems]
  · rintro cart rfl hne haddr
    have hlen : (cart.cartItems.length == 0) = false := by
      simp [List.length_eq_zero, hne]
    simp [checkout, hlen, haddr]
  · rintro cart rfl hne haddr hbal
    have hlen : (cart.cartItems.length == 0) = false := by
      simp [List.length_eq_zero, hne]
    simp [checkout, hlen, haddr, hbal]

/-- Witness for C3: a user with wallet balance exactly 0, set address
and non-empty cart gets InvalidRequest "Insufficient balance" and no
state change. -/
theorem checkout_error_cases_witness :
    checkout ⟨"u@qkart.com", 0, true⟩ (some ⟨"u@qkart.com", [⟨⟨"A", 10⟩, 1⟩]⟩)
        ⟨"u@qkart.com", 0, true⟩ =
      ⟨some ⟨.badRequest, "Insufficient balance"⟩, ⟨"u@qkart.com", 0, true⟩,
       some ⟨"u@qkart.com", [⟨⟨"A", 10⟩, 1⟩]⟩, ⟨"u@qkart.com", 0, true⟩⟩ :=
  (checkout_error_cases ⟨"u@qkart.com", 0, true⟩
      (some ⟨"u@qkart.com", [⟨⟨"A", 10⟩, 1⟩]⟩) ⟨"u@qkart.com", 0, true⟩).2.2.2
    ⟨"u@qkart.com", [⟨⟨"A", 10⟩, 1⟩]⟩ rfl (by decide) rfl rfl

/-- C5: when the productId does not resolve in the catalog,
addProductToCart fails with InvalidRequest whatever the cart state and
whatever `createOk`, and the stored cart is exactly what it was. -/
theorem add_unknown_product (catalog : ProductId → Option Product) (user : User)
    (productId : ProductId) (quantity : Nat) (storedCart : Option Cart) (createOk : Bool)
    (h : catalog productId = none) :
    addProductToCart catalog user productId quantity storedCart createOk =
      ⟨.error ⟨.badRequest, "Product doesn\x27t exist in database"⟩, storedCart⟩ := by
  simp [addProductToCart, h]

/-- Witness for C5: product "Z" is not in the sample catalog; adding it
to a cart that already holds product "A" fails and leaves the cart. -/
theorem add_unknown_product_witness :
    addProductToCart sampleCatalog ⟨"u@qkart.com", 100, true⟩ "Z" 1
        (some ⟨"u@qkart.com", [⟨⟨"A", 10⟩, 2⟩]⟩) true =
      ⟨.error ⟨.badRequest, "Product doesn\x27t exist in database"⟩,
       some ⟨"u@qkart.com", [⟨⟨"A", 10⟩, 2⟩]⟩⟩ :=
  add_unknown_product sampleCatalog ⟨"u@qkart.com", 100, true⟩ "Z" 1
    (some ⟨"u@qkart.com", [⟨⟨"A", 10⟩, 2⟩]⟩) true (by decide)

/-- C6: with no existing cart and a catalog-resolvable productId, the
operation creates and persists a cart with the single line item
(snapshot, quantity) and returns it; when the store create fails
(`createOk = false`) it fails with InternalError and no cart exists. -/
theorem add_creates_cart_when_absent (catalog : ProductId → Option Product) (user : User)
    (productId : ProductId) (product : Product) (quantity : Nat)
    (hcat : catalog productId = some product) :
    addProductToCart catalog user productId quantity none true =
      ⟨.ok ⟨user.email, [⟨product, quantity⟩]⟩, some ⟨user.email, [⟨product, quantity⟩]⟩⟩ ∧
    addProductToCart catalog user productId quantity none false =
      ⟨.error ⟨.internalError, "Internal Server Error"⟩, none⟩ := by
  constructor <;> simp [addProductToCart, hcat]

/-- Witness for C6: adding product "A" (qty 2) with no cart creates the
one-item cart; with the failing create it reports InternalError. -/
theorem add_creates_cart_when_absent_witness :
    addProductToCart sampleCatalog ⟨"u@qkart.com", 100, true⟩ "A" 2 none true =
      ⟨.ok ⟨"u@qkart.com", [⟨⟨"A", 10⟩, 2⟩]⟩, some ⟨"u@qkart.com", [⟨⟨"A", 10⟩, 2⟩]⟩⟩ ∧
    addProductToCart sampleCatalog ⟨"u@qkart.com", 100, true⟩ "A" 2 none false =
      ⟨.error ⟨.internalError, "Internal Server Error"⟩, none⟩ :=
  add_creates_cart_when_absent sampleCatalog ⟨"u@qkart.com", 100, true⟩ "A" ⟨"A", 10⟩ 2
    (by decide)

/-- Counterexample for C2: a successful checkout (wallet 100, cart
[(A, 10, 2), (B, 5, 1)]) leaves the in-memory user at 75 but the User
Directory record still at 100: the debit is not persisted, because the
code calls `cart.save()` only and never `user.save()`. -/
theorem checkout_wallet_debit_not_persisted :
    (checkout ⟨"u@qkart.com", 100, true⟩
        (some ⟨"u@qkart.com", [⟨⟨"A", 10⟩, 2⟩, ⟨⟨"B", 5⟩, 1⟩]⟩)
        ⟨"u@qkart.com", 100, true⟩).err = none ∧
    (checkout ⟨"u@qkart.com", 100, true⟩
        (some ⟨"u@qkart.com", [⟨⟨"A", 10⟩, 2⟩, ⟨⟨"B", 5⟩, 1⟩]⟩)
        ⟨"u@qkart.com", 100, true⟩).memUser.walletMoney = 75 ∧
    (checkout ⟨"u@qkart.com", 100, true⟩
        (some ⟨"u@qkart.com", [⟨⟨"A", 10⟩, 2⟩, ⟨⟨"B", 5⟩, 1⟩]⟩)
        ⟨"u@qkart.com", 100, true⟩).userStore.walletMoney = 100 := by
  decide

/-- When every checkout guard passes, the outcome is the success record:
no error, in-memory debit, emptied cart persisted, directory record
untouched. -/
lemma checkout_success_eq (user : User) (cart : Cart) (storedUser : User)
    (h1 : (cart.cartItems.length == 0) = false)
    (h2 : user.hasSetNonDefaultAddress = true)
    (h3 : (user.walletMoney == 0) = false) :
    checkout user (some cart) storedUser =
      ⟨none, { user with walletMoney := user.walletMoney - (cartTotal cart.cartItems : Int) },
       some { cart with cartItems := [] }, storedUser⟩ := by
  simp [checkout, h1, h2, h3]

/-- A checkout that throws no error must have passed all three guards. -/
lemma checkout_err_none_conditions (user : User) (cart : Cart) (storedUser : User)
    (h : (checkout user (some cart) storedUser).err = none) :
    (cart.cartItems.length == 0) = false ∧ user.hasSetNonDefaultAddress = true ∧
      (user.walletMoney == 0) = false := by
  unfold checkout at h
  by_cases h1 : (cart.cartItems.length == 0) = true
  · simp [h1] at h
  · by_cases h2 : user.hasSetNonDefaultAddress = true
    · by_cases h3 : (user.walletMoney == 0) = true
      · simp [h1, h2, h3] at h
      · exact ⟨by simpa using h1, h2, by simpa using h3⟩
    · simp [h1, h2] at h

/-- C2 (amended): on every successful checkout the emptied cart is
persisted to the Cart Store, while the User Directory record is left
exactly as it was — the wallet debit exists only on the in-memory user
object. -/
theorem checkout_persists_cart_only (user : User) (storedCart : Option Cart)
    (storedUser : User)
    (h : (checkout user storedCart storedUser).err = none) :
    (checkout user storedCart storedUser).userStore = storedUser ∧
    ∃ cart, storedCart = some cart ∧
      (checkout user storedCart storedUser).cartStore =
        some { cart with cartItems := [] } ∧
      (checkout user storedCart storedUser).memUser.walletMoney =
        user.walletMoney - (cartTotal cart.cartItems : Int) := by
  cases storedCart with
  | none => simp [checkout] at h
  | some cart =>
    obtain ⟨h1, h2, h3⟩ := checkout_err_none_conditions user cart storedUser h
    rw [checkout_success_eq user cart storedUser h1 h2 h3]
    exact ⟨rfl, cart, rfl, rfl, rfl⟩

/-- Witness for C2 (amended): concrete successful checkout, cart
persisted empty, directory record untouched, in-memory wallet 100 − 25. -/
theorem checkout_persists_cart_only_witness :
    (checkout ⟨"u@qkart.com", 100, true⟩
        (some ⟨"u@qkart.com", [⟨⟨"A", 10⟩, 2⟩, ⟨⟨"B", 5⟩, 1⟩]⟩)
        ⟨"u@qkart.com", 100, true⟩).userStore = ⟨"u@qkart.com", 100, true⟩ ∧
    (checkout ⟨"u@qkart.com", 100, true⟩
        (some ⟨"u@qkart.com", [⟨⟨"A", 10⟩, 2⟩, ⟨⟨"B", 5⟩, 1⟩]⟩)
        ⟨"u@qkart.com", 100, true⟩).cartStore = some ⟨"u@qkart.com", []⟩ ∧
    (checkout ⟨"u@qkart.com", 100, true⟩
        (some ⟨"u@qkart.com", [⟨⟨"A", 10⟩, 2⟩, ⟨⟨"B", 5⟩, 1⟩]⟩)
        ⟨"u@qkart.com", 100, true⟩).memUser.walletMoney = 75 := by
  obtain ⟨h1, cart, hc, h2, h3⟩ := checkout_persists_cart_only ⟨"u@qkart.com", 100, true⟩
    (some ⟨"u@qkart.com", [⟨⟨"A", 10⟩, 2⟩, ⟨⟨"B", 5⟩, 1⟩]⟩)
    ⟨"u@qkart.com", 100, true⟩ (by decide)
  cases hc
  refine ⟨h1, h2, by rw [h3]; decide⟩

/-- C7: updating a product that resolves in the catalog but is not a
line item of the existing cart fails with InvalidRequest "Product not in
cart" and the stored cart is exactly as before. -/
theorem update_product_not_in_cart (catalog : ProductId → Option Product) (user : User)
    (productId : ProductId) (product : Product) (quantity : Nat) (cart : Cart)
    (hcat : catalog productId = some product)
    (hno : cartHasProduct cart productId = false) :
    updateProductInCart catalog user productId quantity (some cart) =
      ⟨.error ⟨.badRequest, "Product not in cart"⟩, some cart⟩ := by
  unfold cartHasProduct at hno
  simp [updateProductInCart, hcat, hno]

/-- Witness for C7: cart holds only product "A"; updating "B" (which is
in the catalog) fails and leaves the cart unchanged. -/
theorem update_product_not_in_cart_witness :
    updateProductInCart sampleCatalog ⟨"u@qkart.com", 100, true⟩ "B" 4
        (some ⟨"u@qkart.com", [⟨⟨"A", 10⟩, 2⟩]⟩) =
      ⟨.error ⟨.badRequest, "Product not in cart"⟩,
       some ⟨"u@qkart.com", [⟨⟨"A", 10⟩, 2⟩]⟩⟩ :=
  update_product_not_in_cart sampleCatalog ⟨"u@qkart.com", 100, true⟩ "B" ⟨"B", 5⟩ 4
    ⟨"u@qkart.com", [⟨⟨"A", 10⟩, 2⟩]⟩ (by decide) (by decide)

/-- C4: starting from a cart state with no line item for the product
(cart absent or present without it), adding a catalog-resolvable product
succeeds, the persisted cart has exactly one line item for that product,
and a second identical add fails with InvalidRequest "already in cart"
and leaves the persisted cart with still exactly that one line item. -/
theorem add_same_product_twice (catalog : ProductId → Option Product) (user : User)
    (productId : ProductId) (product : Product) (q1 q2 : Nat) (storedCart : Option Cart)
    (hcat : catalog productId = some product) (hid : product.id = productId)
    (hnot : ∀ cart, storedCart = some cart → cartHasProduct cart productId = false) :
    ∃ c1 : Cart,
      (addProductToCart catalog user productId q1 storedCart true).res = .ok c1 ∧
      (addProductToCart catalog user productId q1 storedCart true).cartStore = some c1 ∧
      productLineCount c1 productId = 1 ∧
      addProductToCart catalog user productId q2 (some c1) true =
        ⟨.error ⟨.badRequest,
          "Product already in cart. Use the cart sidebar to update or remove product from cart"⟩,
         some c1⟩ := by
  cases storedCart with
  | none =>
    refine ⟨⟨user.email, [⟨product, q1⟩]⟩, ?_, ?_, ?_, ?_⟩
    · simp [addProductToCart, hcat]
    · simp [addProductToCart, hcat]
    · simp [productLineCount, List.countP_cons, hid]
    · simp [addProductToCart, hcat, hid]
  | some cart =>
    have hany := hnot cart rfl
    unfold cartHasProduct at hany
    refine ⟨{ cart with cartItems := cart.cartItems ++ [⟨product, q1⟩] }, ?_, ?_, ?_, ?_⟩
    · simp [addProductToCart, hcat, hany]
    · simp [addProductToCart, hcat, hany]
    · have hzero : cart.cartItems.countP (fun ele => ele.product.id == productId) = 0 := by
        rw [List.countP_eq_zero]
        intro a ha hpa
        have htrue : cart.cartItems.any (fun ele => ele.product.id == productId) = true :=
          List.any_eq_true.mpr ⟨a, ha, hpa⟩
        rw [hany] at htrue
        exact Bool.false_ne_true htrue
      simp [productLineCount, List.countP_append, List.countP_cons, hzero, hid]
    · simp [addProductToCart, hcat, List.any_append, hid]

/-- Witness for C4: no cart, add product "A" (qty 2) succeeds with the
one-item cart; adding "A" again (qty 3) fails with "already in cart" and
the stored cart still holds the single "A" line item. -/
theorem add_same_product_twice_witness :
    (addProductToCart sampleCatalog ⟨"u@qkart.com", 100, true⟩ "A" 2 none true).res =
      .ok ⟨"u@qkart.com", [⟨⟨"A", 10⟩, 2⟩]⟩ ∧
    productLineCount ⟨"u@qkart.com", [⟨⟨"A", 10⟩, 2⟩]⟩ "A" = 1 ∧
    addProductToCart sampleCatalog ⟨"u@qkart.com", 100, true⟩ "A" 3
        (some ⟨"u@qkart.com", [⟨⟨"A", 10⟩, 2⟩]⟩) true =
      ⟨.error ⟨.badRequest,
        "Product already in cart. Use the cart sidebar to update or remove product from cart"⟩,
       some ⟨"u@qkart.com", [⟨⟨"A", 10⟩, 2⟩]⟩⟩ := by
  obtain ⟨c1, h1, h2, h3, h4⟩ := add_same_product_twice sampleCatalog
    ⟨"u@qkart.com", 100, true⟩ "A" ⟨"A", 10⟩ 2 3 none (by decide) rfl
    (by intro cart hc; cases hc)
  have hL : (addProductToCart sampleCatalog ⟨"u@qkart.com", 100, true⟩ "A" 2 none true).res =
      .ok ⟨"u@qkart.com", [⟨⟨"A", 10⟩, 2⟩]⟩ := by decide
  have hc1 : c1 = ⟨"u@qkart.com", [⟨⟨"A", 10⟩, 2⟩]⟩ := by
    have hok := hL.symm.trans h1
    injection hok with hok
    exact hok.symm
  subst hc1
  exact ⟨h1, h3, h4⟩

/-- `updateFirstQuantity` rewrites exactly the first matching index `i`:
the element there matches, no earlier element matches, and the result is
the original list with position `i` replaced by (same product snapshot,
new quantity). -/
lemma updateFirstQuantity_spec (productId : ProductId) (quantity : Nat)
    (items : List CartItem)
    (h : items.any (fun ele => ele.product.id == productId) = true) :
    ∃ i, ∃ hi : i < items.length,
      (items.get ⟨i, hi⟩).product.id = productId ∧
      (∀ j (hj : j < i), (items.get ⟨j, Nat.lt_trans hj hi⟩).product.id ≠ productId) ∧
      updateFirstQuantity productId quantity items =
        items.set i ⟨(items.get ⟨i, hi⟩).product, quantity⟩ := by
  induction items with
  | nil => simp at h
  | cons hd tl ih =>
    by_cases hhd : (hd.product.id == productId) = true
    · refine ⟨0, Nat.succ_pos _, by simpa using hhd, ?_, ?_⟩
      · intro j hj
        exact absurd hj (Nat.not_lt_zero j)
      · show updateFirstQuantity productId quantity (hd :: tl) =
          ⟨hd.product, quantity⟩ :: tl
        simp [updateFirstQuantity, hhd]
    · have hfalse : (hd.product.id == productId) = false := by simpa using hhd
      have h' : tl.any (fun ele => ele.product.id == productId) = true := by
        simpa [List.any_cons, hfalse] using h
      obtain ⟨i, hi, hmatch, hmin, heq⟩ := ih h'
      refine ⟨i + 1, Nat.succ_lt_succ hi, hmatch, ?_, ?_⟩
      · intro j hj
        cases j with
        | zero => simpa using hhd
        | succ j => exact hmin j (Nat.lt_of_succ_lt_succ hj)
      · show (if (hd.product.id == productId) = true then
            ({ hd with quantity := quantity } :: tl)
          else hd :: updateFirstQuantity productId quantity tl) =
          hd :: tl.set i ⟨(tl.get ⟨i, hi⟩).product, quantity⟩
        rw [if_neg hhd, heq]

/-- `removeFirstItem` deletes exactly the first matching index `i`: the
element there matches, no earlier element matches, and the result is the
original list with position `i` erased (order preserved). -/
lemma removeFirstItem_spec (productId : ProductId) (items : List CartItem)
    (h : items.any (fun ele => ele.product.id == productId) = true) :
    ∃ i, ∃ hi : i < items.length,
      (items.get ⟨i, hi⟩).product.id = productId ∧
      (∀ j (hj : j < i), (items.get ⟨j, Nat.lt_trans hj hi⟩).product.id ≠ productId) ∧
      removeFirstItem productId items = items.eraseIdx i := by
  induction items with
  | nil => simp at h
  | cons hd tl ih =>
    by_cases hhd : (hd.product.id == productId) = true
    · refine ⟨0, Nat.succ_pos _, by simpa using hhd, ?_, ?_⟩
      · intro j hj
        exact absurd hj (Nat.not_lt_zero j)
      · show removeFirstItem productId (hd :: tl) = tl
        simp [removeFirstItem, hhd]
    · have hfalse : (hd.product.id == productId) = false := by simpa using hhd
      have h' : tl.any (fun ele => ele.product.id == productId) = true := by
        simpa [List.any_cons, hfalse] using h
      obtain ⟨i, hi, hmatch, hmin, heq⟩ := ih h'
      refine ⟨i + 1, Nat.succ_lt_succ hi, hmatch, ?_, ?_⟩
      · intro j hj
        cases j with
        | zero => simpa using hhd
        | succ j => exact hmin j (Nat.lt_of_succ_lt_succ hj)
      · show (if (hd.product.id == productId) = true then tl
          else hd :: removeFirstItem productId tl) = hd :: tl.eraseIdx i
        rw [if_neg hhd, heq]

/-- C8: when the cart holds a line item for a catalog-resolvable
productId, updateProductInCart returns and persists the cart whose items
are the original list with exactly the matched position overwritten by
(same product snapshot, new quantity): every other line item, the order,
the matched snapshot and the owner (`email`) are untouched. -/
theorem update_overwrites_quantity (catalog : ProductId → Option Product) (user : User)
    (productId : ProductId) (product : Product) (quantity : Nat) (cart : Cart)
    (hcat : catalog productId = some product)
    (hmem : cartHasProduct cart productId = true) :
    ∃ i, ∃ hi : i < cart.cartItems.length,
      (cart.cartItems.get ⟨i, hi⟩).product.id = productId ∧
      (∀ j (hj : j < i),
        (cart.cartItems.get ⟨j, Nat.lt_trans hj hi⟩).product.id ≠ productId) ∧
      updateProductInCart catalog user productId quantity (some cart) =
        ⟨.ok ⟨cart.email,
            cart.cartItems.set i ⟨(cart.cartItems.get ⟨i, hi⟩).product, quantity⟩⟩,
         some ⟨cart.email,
            cart.cartItems.set i ⟨(cart.cartItems.get ⟨i, hi⟩).product, quantity⟩⟩⟩ := by
  unfold cartHasProduct at hmem
  obtain ⟨i, hi, hmatch, hmin, heq⟩ :=
    updateFirstQuantity_spec productId quantity cart.cartItems hmem
  refine ⟨i, hi, hmatch, hmin, ?_⟩
  simp [updateProductInCart, hcat, hmem, heq]

/-- Witness for C8: cart [(A, qty 2), (B, qty 1)], update "B" to 5 —
only the "B" line item's quantity changes, in place. -/
theorem update_overwrites_quantity_witness :
    updateProductInCart sampleCatalog ⟨"u@qkart.com", 100, true⟩ "B" 5
        (some ⟨"u@qkart.com", [⟨⟨"A", 10⟩, 2⟩, ⟨⟨"B", 5⟩, 1⟩]⟩) =
      ⟨.ok ⟨"u@qkart.com", [⟨⟨"A", 10⟩, 2⟩, ⟨⟨"B", 5⟩, 5⟩]⟩,
       some ⟨"u@qkart.com", [⟨⟨"A", 10⟩, 2⟩, ⟨⟨"B", 5⟩, 5⟩]⟩⟩ := by
  obtain ⟨i, hi, hmatch, hmin, heq⟩ := update_overwrites_quantity sampleCatalog
    ⟨"u@qkart.com", 100, true⟩ "B" ⟨"B", 5⟩ 5
    ⟨"u@qkart.com", [⟨⟨"A", 10⟩, 2⟩, ⟨⟨"B", 5⟩, 1⟩]⟩ (by decide) (by decide)
  have hi2 : i < 2 := by simpa using hi
  have hone : i = 1 := by
    have hcases : i = 0 ∨ i = 1 := by omega
    rcases hcases with h0 | h1
    · subst h0
      simp at hmatch
    · exact h1
  subst hone
  rw [heq]
  rfl

/-- C9 (amended): when the cart holds a line item for the product,
deleteProductFromCart removes exactly the matched position (order of the
remaining items preserved), persists the cart, and returns the updated
cart; deleting the only item leaves the cart stored with zero items
rather than deleting the record (see the witness). -/
theorem delete_removes_item (user : User) (productId : ProductId) (cart : Cart)
    (hmem : cartHasProduct cart productId = true) :
    ∃ i, ∃ hi : i < cart.cartItems.length,
      (cart.cartItems.get ⟨i, hi⟩).product.id = productId ∧
      (∀ j (hj : j < i),
        (cart.cartItems.get ⟨j, Nat.lt_trans hj hi⟩).product.id ≠ productId) ∧
      deleteProductFromCart user productId (some cart) =
        ⟨.ok ⟨cart.email, cart.cartItems.eraseIdx i⟩,
         some ⟨cart.email, cart.cartItems.eraseIdx i⟩⟩ := by
  unfold cartHasProduct at hmem
  obtain ⟨i, hi, hmatch, hmin, heq⟩ := removeFirstItem_spec productId cart.cartItems hmem
  refine ⟨i, hi, hmatch, hmin, ?_⟩
  simp [deleteProductFromCart, hmem, heq]

/-- Witness for C9 (amended): deleting the only line item ("A") leaves
the cart persisted with an empty item list — the record exists, not
deleted — and the call returns that updated cart. -/
theorem delete_removes_item_witness :
    deleteProductFromCart ⟨"u@qkart.com", 100, true⟩ "A"
        (some ⟨"u@qkart.com", [⟨⟨"A", 10⟩, 2⟩]⟩) =
      ⟨.ok ⟨"u@qkart.com", []⟩, some ⟨"u@qkart.com", []⟩⟩ := by
  obtain ⟨i, hi, hmatch, hmin, heq⟩ := delete_removes_item ⟨"u@qkart.com", 100, true⟩ "A"
    ⟨"u@qkart.com", [⟨⟨"A", 10⟩, 2⟩]⟩ (by decide)
  have hi1 : i < 1 := by simpa using hi
  have hzero : i = 0 := Nat.lt_one_iff.mp hi1
  subst hzero
  rw [heq]
  rfl

/-- Counterexample for C9 as stated: a successful delete does not return
nothing — the code ends with `return cart;`, so the call's result value
is the updated cart document (here the emptied cart). -/
theorem delete_returns_cart_not_void :
    (deleteProductFromCart ⟨"u@qkart.com", 100, true⟩ "A"
        (some ⟨"u@qkart.com", [⟨⟨"A", 10⟩, 2⟩]⟩)).res =
      .ok ⟨"u@qkart.com", []⟩ := by
  decide

/-- Overwriting a quantity never changes the sequence of product ids. -/
lemma updateFirstQuantity_map_productId (productId : ProductId) (quantity : Nat)
    (l : List CartItem) :
    (updateFirstQuantity productId quantity l).map (fun it => it.product.id) =
      l.map (fun it => it.product.id) := by
  induction l with
  | nil => rfl
  | cons hd tl ih =>
    by_cases h : (hd.product.id == productId) = true <;>
      simp [updateFirstQuantity, h, ih]

/-- Overwriting a quantity with a value ≥ 1 keeps all quantities ≥ 1. -/
lemma updateFirstQuantity_quantities (productId : ProductId) (quantity : Nat) :
    ∀ l : List CartItem, 1 ≤ quantity → (∀ it ∈ l, 1 ≤ it.quantity) →
      ∀ it ∈ updateFirstQuantity productId quantity l, 1 ≤ it.quantity := by
  intro l
  induction l with
  | nil =>
    intro _ _ it hmem
    simp [updateFirstQuantity] at hmem
  | cons hd tl ih =>
    intro hq hl it hmem
    by_cases h : (hd.product.id == productId) = true
    · simp only [updateFirstQuantity, h, if_true] at hmem
      rcases List.mem_cons.mp hmem with h1 | h2
      · rw [h1]
        exact hq
      · exact hl it (List.mem_cons_of_mem _ h2)
    · simp only [updateFirstQuantity, h, if_false] at hmem
      rcases List.mem_cons.mp hmem with h1 | h2
      · rw [h1]
        exact hl hd (List.mem_cons_self _ _)
      · exact ih hq (fun x hx => hl x (List.mem_cons_of_mem _ hx)) it h2

/-- Removing the first matching item yields a sublist of the original. -/
lemma removeFirstItem_sublist (productId : ProductId) :
    ∀ l : List CartItem, List.Sublist (removeFirstItem productId l) l := by
  intro l
  induction l with
  | nil => exact List.Sublist.refl []
  | cons hd tl ih =>
    by_cases h : (hd.product.id == productId) = true
    · simp only [removeFirstItem, h, if_true]
      exact List.sublist_cons_self hd tl
    · simp only [removeFirstItem, h, if_false]
      exact ih.cons₂ hd

/-- Counterexample for C10 as stated: the service never validates the
supplied quantity, so adding a product with quantity 0 to an invariant-
satisfying state (here: no cart) persists a cart whose single line item
has quantity 0, violating the quantity ≥ 1 invariant. -/
theorem add_zero_quantity_breaks_invariant :
    cartStoreInv (none : Option Cart) ∧
    (addProductToCart sampleCatalog ⟨"u@qkart.com", 100, true⟩ "A" 0 none true).cartStore =
      some ⟨"u@qkart.com", [⟨⟨"A", 10⟩, 0⟩]⟩ ∧
    ¬ cartInv ⟨"u@qkart.com", [⟨⟨"A", 10⟩, 0⟩]⟩ := by
  refine ⟨trivial, by decide, ?_⟩
  intro h
  have := h.1 ⟨⟨"A", 10⟩, 0⟩ (List.mem_singleton_self _)
  exact absurd this (by decide)

/-- C10 (amended): every Cart Service operation preserves the cart
invariant (all quantities ≥ 1, no two line items with the same product
id) provided the supplied quantity is at least 1 and the catalog only
resolves a productId to a product carrying that id. -/
theorem cart_ops_preserve_invariant
    (catalog : ProductId → Option Product) (user : User) (productId : ProductId)
    (quantity : Nat) (storedCart : Option Cart) (createOk : Bool) (storedUser : User)
    (hq : 1 ≤ quantity)
    (hwf : ∀ pid p, catalog pid = some p → p.id = pid)
    (hinv : cartStoreInv storedCart) :
    (∀ c, getCartByUser storedCart = .ok c → cartInv c) ∧
    cartStoreInv (addProductToCart catalog user productId quantity storedCart createOk).cartStore ∧
    cartStoreInv (updateProductInCart catalog user productId quantity storedCart).cartStore ∧
    cartStoreInv (deleteProductFromCart user productId storedCart).cartStore ∧
    cartStoreInv (checkout user storedCart storedUser).cartStore := by
  refine ⟨?_, ?_, ?_, ?_, ?_⟩
  · intro c hc
    cases storedCart with
    | none => simp [getCartByUser] at hc
    | some cart =>
      simp only [getCartByUser, Except.ok.injEq] at hc
      rw [← hc]
      exact hinv
  · cases hcat : catalog productId with
    | none =>
      simpa [addProductToCart, hcat] using hinv
    | some p =>
      have hpid : p.id = productId := hwf _ _ hcat
      cases storedCart with
      | none =>
        cases createOk with
        | false => simp [addProductToCart, hcat, cartStoreInv]
        | true =>
          simp only [addProductToCart, hcat, if_true]
          refine ⟨?_, ?_⟩
          · intro it hmem
            rw [List.mem_singleton.mp hmem]
            exact hq
          · simp
      | some cart =>
        by_cases hany : (cart.cartItems.any (fun ele => ele.product.id == productId)) = true
        · simpa [addProductToCart, hcat, hany] using hinv
        · have hany' : (cart.cartItems.any (fun ele => ele.product.id == productId)) = false := by
            simpa using hany
          obtain ⟨hq', hnd⟩ := hinv
          simp only [addProductToCart, hcat, hany', Bool.false_eq_true, if_false]
          refine ⟨?_, ?_⟩
          · intro it hmem
            rcases List.mem_append.mp hmem with h1 | h2
            · exact hq' it h1
            · rw [List.mem_singleton.mp h2]
              exact hq
          · rw [List.map_append]
            have hnotin : p.id ∉ cart.cartItems.map (fun it => it.product.id) := by
              intro hmem
              obtain ⟨it, hit, hid2⟩ := List.mem_map.mp hmem
              have hbeq : (it.product.id == productId) = true := by
                simp [hid2, hpid]
              have htrue : cart.cartItems.any (fun ele => ele.product.id == productId) = true :=
                List.any_eq_true.mpr ⟨it, hit, hbeq⟩
              rw [hany'] at htrue
              exact Bool.false_ne_true htrue
            refine hnd.append (List.nodup_singleton _) ?_
            intro x hx hx'
            simp only [List.map_cons, List.map_nil, List.mem_singleton] at hx'
            subst hx'
            exact hnotin hx
  · cases storedCart with
    | none => simp [updateProductInCart, cartStoreInv]
    | some cart =>
      cases hcat : catalog productId with
      | none => simpa [updateProductInCart, hcat] using hinv
      | some p =>
        by_cases hany : (cart.cartItems.any (fun ele => ele.product.id == productId)) = true
        · obtain ⟨hq', hnd⟩ := hinv
          simp only [updateProductInCart, hcat, hany, if_true]
          refine ⟨?_, ?_⟩
          · exact updateFirstQuantity_quantities productId quantity cart.cartItems hq hq'
          · rw [updateFirstQuantity_map_productId]
            exact hnd
        · have hany' : (cart.cartItems.any (fun ele => ele.product.id == productId)) = false := by
            simpa using hany
          simpa [updateProductInCart, hcat, hany'] using hinv
  · cases storedCart with
    | none => simp [deleteProductFromCart, cartStoreInv]
    | some cart =>
      by_cases hany : (cart.cartItems.any (fun ele => ele.product.id == productId)) = true
      · obtain ⟨hq', hnd⟩ := hinv
        simp only [deleteProductFromCart, hany, if_true]
        refine ⟨?_, ?_⟩
        · intro it hmem
          exact hq' it ((removeFirstItem_sublist productId cart.cartItems).subset hmem)
        · exact hnd.sublist ((removeFirstItem_sublist productId cart.cartItems).map _)
      · have hany' : (cart.cartItems.any (fun ele => ele.product.id == productId)) = false := by
          simpa using hany
        simpa [deleteProductFromCart, hany'] using hinv
  · cases storedCart with
    | none => simp [checkout, cartStoreInv]
    | some cart =>
      by_cases h1 : (cart.cartItems.length == 0) = true
      · simpa [checkout, h1] using hinv
      · by_cases h2 : user.hasSetNonDefaultAddress = true
        · by_cases h3 : (user.walletMoney == 0) = true
          · simpa [checkout, h1, h2, h3] using hinv
          · have h1' : (cart.cartItems.length == 0) = false := by simpa using h1
            have h3' : (user.walletMoney == 0) = false := by simpa using h3
            rw [checkout_success_eq user cart storedUser h1' h2 h3']
            exact ⟨by simp, by simp⟩
        · simpa [checkout, h1, h2] using hinv

/-- Witness for C10 (amended): starting from the invariant-satisfying
cart [(A, qty 2)], each operation with quantity 1 and productId "B"
leaves every reachable stored cart satisfying the invariant. -/
theorem cart_ops_preserve_invariant_witness :
    cartStoreInv (addProductToCart sampleCatalog ⟨"u@qkart.com", 100, true⟩ "B" 1
        (some ⟨"u@qkart.com", [⟨⟨"A", 10⟩, 2⟩]⟩) true).cartStore ∧
    cartStoreInv (updateProductInCart sampleCatalog ⟨"u@qkart.com", 100, true⟩ "B" 1
        (some ⟨"u@qkart.com", [⟨⟨"A", 10⟩, 2⟩]⟩)).cartStore ∧
    cartStoreInv (deleteProductFromCart ⟨"u@qkart.com", 100, true⟩ "B"
        (some ⟨"u@qkart.com", [⟨⟨"A", 10⟩, 2⟩]⟩)).cartStore ∧
    cartStoreInv (checkout ⟨"u@qkart.com", 100, true⟩
        (some ⟨"u@qkart.com", [⟨⟨"A", 10⟩, 2⟩]⟩) ⟨"u@qkart.com", 100, true⟩).cartStore := by
  obtain ⟨_, h2, h3, h4, h5⟩ := cart_ops_preserve_invariant sampleCatalog
    ⟨"u@qkart.com", 100, true⟩ "B" 1 (some ⟨"u@qkart.com", [⟨⟨"A", 10⟩, 2⟩]⟩) true
    ⟨"u@qkart.com", 100, true⟩ (by decide) sampleCatalog_wf (by decide)
  exact ⟨h2, h3, h4, h5⟩
